import Mathlib

/-!
Verification of the SimpleLocalize MCP server (`src/main.py`).

The file embeds the four tool operations of `main.py` shallowly:

* Python dicts that flow into `json=` bodies are association lists
  `Dict := List (String × Json)` over a `Json` value type.
* The network is an oracle `net : Request → TransportResult`: every
  operation is a function of its arguments and the oracle, returning
  the pair of (the Python outcome, the list of HTTP requests issued).
  A Python `return` is `Except.ok`, an uncaught `raise` is
  `Except.error` carrying the exception.
* `httpx` behaviour visible to this program is embedded in
  `make_simplelocalize_request`: `raise_for_status` raises an
  `httpx.HTTPError` subclass on any non-2xx status, a transport
  failure raises an `httpx.HTTPError`, and `response.json()` on a
  body that is not valid JSON raises `json.JSONDecodeError`, which is
  a `ValueError` subclass and NOT an `httpx.HTTPError`.  Exact
  library message texts are not reproduced; they are modelled by
  concrete placeholder strings (no claim depends on their wording).
-/

/-- JSON values, as produced by `response.json()` and consumed by the
`json=` argument of `httpx`.  Numbers are modelled as integers; none of
the code paths under verification manipulates fractional numbers. -/
inductive Json where
  | null : Json
  | bool : Bool → Json
  | num : Int → Json
  | str : String → Json
  | arr : List Json → Json
  | obj : List (String × Json) → Json
deriving BEq

/-- A Python dict whose keys are strings, as the tool inputs are. -/
abbrev Dict := List (String × Json)

/-- Lookup `d.get(k)` on a Python dict: `Some v` when the key is present. -/
def dictGet (d : Dict) (k : String) : Option Json :=
  List.lookup k d

/-- Membership `k in d` on a Python dict. -/
def dictContains (d : Dict) (k : String) : Bool :=
  (dictGet d k).isSome

/-- Python truthiness of a JSON-shaped value (`bool(x)`). -/
def Json.truthy : Json → Bool
  | .null => false
  | .bool b => b
  | .num n => n != 0
  | .str s => s != ("")
  | .arr xs => !xs.isEmpty
  | .obj fs => !fs.isEmpty

/-- Truthiness of `d.get(k)`: an absent key yields `None`, which is falsy. -/
def optTruthy : Option Json → Bool
  | none => false
  | some v => v.truthy

/-- The Python exceptions this program can raise or catch. -/
inductive PyError where
  | valueError : String → PyError
  | simpleLocalizeError : String → PyError
  | jsonDecodeError : String → PyError
  | attributeError : String → PyError
  | typeError : String → PyError
  | keyError : String → PyError
deriving BEq

/-- One outbound HTTP request: method (upper-cased), endpoint path
appended to the fixed base URL, and the JSON body (`none` = no body). -/
structure Request where
  method : String
  endpoint : String
  body : Option Json
deriving BEq

def SIMPLELOCALIZE_API_BASE : String := "https://api.simplelocalize.io"

/-- The full URL of a request: the fixed base URL followed by the
endpoint path. -/
def Request.url (r : Request) : String :=
  SIMPLELOCALIZE_API_BASE ++ r.endpoint

/-- What the transport layer yields for one request: either an
`httpx.HTTPError` raised while sending (connect failure, timeout, ...),
or an HTTP response with a status code and a body whose JSON parse
result is `some j` (valid JSON `j`) or `none` (malformed body). -/
inductive TransportResult where
  | transportError : String → TransportResult
  | response : Nat → Option Json → TransportResult

/-- Test `response.is_success`: a 2xx status.  `Response.raise_for_status`
raises `httpx.HTTPStatusError` for every other status. -/
def is2xx (status : Nat) : Bool :=
  200 ≤ status && status < 300

/-- Modelled from the httpx library: the message of the
`HTTPStatusError` raised by `raise_for_status` mentions the status code
and the URL; the exact wording is immaterial here. -/
def httpStatusErrorMessage (status : Nat) (endpoint : String) : String :=
  ("HTTP status error ") ++ toString status ++ (" for url ")
    ++ SIMPLELOCALIZE_API_BASE ++ endpoint

/-- Modelled from the json library: the message of the
`json.JSONDecodeError` raised by `response.json()` on a malformed body. -/
def jsonDecodeErrorMessage : String :=
  "Expecting value: line 1 column 1 (char 0)"

/-- Python `str.upper()` on the method names this program uses (plain
ASCII), character by character. -/
def pyUpper (s : String) : String :=
  String.mk (s.data.map Char.toUpper)

/-- Embedding of `make_simplelocalize_request` of `main.py`.  Builds the request
(headers are constant and elided), sends it through the oracle `net`,
raises `ValueError` on an unsupported method, converts any
`httpx.HTTPError` (transport failure or non-2xx status) into
`SimpleLocalizeError`, and parses the 2xx body with `response.json()`
— whose `json.JSONDecodeError` on a malformed body is NOT caught by
`except httpx.HTTPError`.  Returns the parsed JSON together with the
list of requests actually issued. -/
def make_simplelocalize_request (method : String) (endpoint : String)
    (json_data : Option Json) (net : Request → TransportResult) :
    Except PyError Json × List Request :=
  let m := pyUpper method
  if m = ("POST") || m = ("PATCH") || m = ("GET") then
    let req : Request := ⟨m, endpoint, json_data⟩
    match net req with
    | .transportError msg =>
        (.error (.simpleLocalizeError (("SimpleLocalize API error: ") ++ msg)), [req])
    | .response status body =>
        if is2xx status then
          match body with
          | some j => (.ok j, [req])
          | none => (.error (.jsonDecodeError jsonDecodeErrorMessage), [req])
        else
          (.error (.simpleLocalizeError (("SimpleLocalize API error: ")
            ++ httpStatusErrorMessage status endpoint)), [req])
  else
    (.error (.valueError (("Unsupported HTTP method: ") ++ method)), [])

/-- Method call `x.get(k, default)` where `x` came from parsed JSON:
works on a dict, raises `AttributeError` on anything else. -/
def pyGetD (j : Json) (k : String) (default : Json) : Except PyError Json :=
  match j with
  | .obj fs => .ok ((dictGet fs k).getD default)
  | _ => .error (.attributeError (("object has no attribute ") ++ ("\x27get\x27")))

/-- Indexing `x[k]` with a string key on a parsed JSON value: dict lookup
(`KeyError` when absent), `TypeError` on a list or any other value. -/
def pyIndex (j : Json) (k : String) : Except PyError Json :=
  match j with
  | .obj fs =>
      match dictGet fs k with
      | some v => .ok v
      | none => .error (.keyError k)
  | _ => .error (.typeError ("indices must be integers"))

/-- Membership `k in x` for a string `k` and a parsed JSON value `x`: key test on
a dict, membership on a list, substring test on a string, `TypeError`
otherwise. -/
def pyContains (j : Json) (k : String) : Except PyError Bool :=
  match j with
  | .obj fs => .ok (dictContains fs k)
  | .arr xs => .ok (xs.contains (Json.str k))
  | .str s => .ok (decide (List.IsInfix k.toList s.toList))
  | _ => .error (.typeError ("argument is not iterable"))

/-- Length `len(x)` of a parsed JSON value. -/
def pyLen (j : Json) : Except PyError Nat :=
  match j with
  | .arr xs => .ok xs.length
  | .str s => .ok s.length
  | .obj fs => .ok fs.length
  | _ => .error (.typeError ("object has no len"))

mutual
/-- Python `repr` of a parsed JSON value, as interpolated by f-strings
for containers.  String escaping inside `repr` is not reproduced. -/
def pyRepr : Json → String
  | .null => "None"
  | .bool true => "True"
  | .bool false => "False"
  | .num n => toString n
  | .str s => ("\x27") ++ s ++ ("\x27")
  | .arr xs => ("[") ++ pyReprList xs ++ ("]")
  | .obj fs => ("\x7b") ++ pyReprFields fs ++ ("\x7d")

/-- Comma-separated `repr` of list elements. -/
def pyReprList : List Json → String
  | [] => ""
  | [x] => pyRepr x
  | x :: y :: xs => pyRepr x ++ (", ") ++ pyReprList (y :: xs)

/-- Comma-separated `repr` of dict entries. -/
def pyReprFields : List (String × Json) → String
  | [] => ""
  | [(k, v)] => ("\x27") ++ k ++ ("\x27: ") ++ pyRepr v
  | (k, v) :: e :: fs =>
      ("\x27") ++ k ++ ("\x27: ") ++ pyRepr v ++ (", ") ++ pyReprFields (e :: fs)
end

/-- Python `str` of a parsed JSON value, as interpolated by f-strings. -/
def pyStr : Json → String
  | .str s => s
  | .null => "None"
  | .bool true => "True"
  | .bool false => "False"
  | .num n => toString n
  | .arr xs => pyRepr (.arr xs)
  | .obj fs => pyRepr (.obj fs)

/-- The message of the `ValueError` raised by `create_translation_keys`
for an item without a truthy `key`. -/
def createKeyErrMsg : String := "Each key must have a \x27key\x27 field"

/-- The message of the `ValueError` raised by `update_translations` for
an item missing one of the three required fields. -/
def updateFieldsErrMsg : String :=
  "Each translation must have \x27key\x27, \x27language\x27, and \x27text\x27 fields"

/-- One iteration of the validation loop of `create_translation_keys`:
raises `ValueError` when `key_info.get("key")` is falsy (absent key,
empty string, or any other falsy value), otherwise builds the cleaned
item with `key` plus exactly the optional fields present in the input.
`key_info["key"]` cannot fail here since the key was just seen truthy,
hence present; `.getD .null` is that lookup. -/
def cleanKey (key_info : Dict) : Except PyError Dict :=
  if !(optTruthy (dictGet key_info ("key"))) then
    .error (.valueError createKeyErrMsg)
  else
    let base : Dict := [(("key"), (dictGet key_info ("key")).getD .null)]
    let withNs : Dict :=
      match dictGet key_info ("namespace") with
      | some v => base ++ [(("namespace"), v)]
      | none => base
    let withDesc : Dict :=
      match dictGet key_info ("description") with
      | some v => withNs ++ [(("description"), v)]
      | none => withNs
    .ok withDesc

/-- The whole validation loop of `create_translation_keys`: the first
failing item aborts with its `ValueError`. -/
def cleanKeys : List Dict → Except PyError (List Dict)
  | [] => .ok []
  | d :: ds => do
    let c ← cleanKey d
    let cs ← cleanKeys ds
    return c :: cs

/-- The clause `except SimpleLocalizeError as e: return str(e)` around
the try body: a `SimpleLocalizeError` becomes the returned string (its
message), every other exception keeps propagating. -/
def catchSimpleLocalize (res : Except PyError String) : Except PyError String :=
  match res with
  | .error (.simpleLocalizeError m) => .ok m
  | other => other

/-- Shared response handling of the two bulk operations: when
`failures` is a key of the default-empty `data` dict of the result and
its value is truthy, return the failure message followed by the
Python repr of the failures value; otherwise the success message. -/
def bulkOutcome (result : Json) (failMsgHead okMsg : String) :
    Except PyError String := do
  let dataVal ← pyGetD result ("data") (.obj [])
  let hasFailures ← pyContains dataVal ("failures")
  if hasFailures then
    let dataVal2 ← pyIndex result ("data")
    let failures ← pyIndex dataVal2 ("failures")
    if failures.truthy then
      return failMsgHead ++ pyRepr failures
    else
      return okMsg
  else
    return okMsg

/-- Embedding of `create_translation_keys` of `main.py`, as a function of the input
list and the network oracle.  First component: the Python outcome
(`ok` = returned string, `error` = uncaught exception); second: the
HTTP requests issued. -/
def create_translation_keys (keys : List Dict)
    (net : Request → TransportResult) : Except PyError String × List Request :=
  match cleanKeys keys with
  | .error e => (.error e, [])
  | .ok cleaned_keys =>
    if cleaned_keys.length > 100 then
      (.error (.valueError ("Maximum 100 keys allowed per request")), [])
    else
      let sent := make_simplelocalize_request ("POST")
        ("/api/v1/translation-keys/bulk")
        (some (.obj [(("translationKeys"), .arr (cleaned_keys.map Json.obj))])) net
      let outcome : Except PyError String := do
        let result ← sent.1
        bulkOutcome result ("Some keys failed to create: ")
          (("Successfully created ") ++ toString cleaned_keys.length
            ++ (" translation keys"))
      (catchSimpleLocalize outcome, sent.2)

/-- One iteration of the validation loop of `update_translations`:
raises `ValueError` unless all of `key`, `language`, `text` are
present (their values are not inspected), then keeps those three plus
`namespace` when present. -/
def cleanTranslation (trans : Dict) : Except PyError Dict :=
  if !(dictContains trans ("key") && dictContains trans ("language")
        && dictContains trans ("text")) then
    .error (.valueError updateFieldsErrMsg)
  else
    let base : Dict :=
      [(("key"), (dictGet trans ("key")).getD .null),
       (("language"), (dictGet trans ("language")).getD .null),
       (("text"), (dictGet trans ("text")).getD .null)]
    let withNs : Dict :=
      match dictGet trans ("namespace") with
      | some v => base ++ [(("namespace"), v)]
      | none => base
    .ok withNs

/-- The whole validation loop of `update_translations`. -/
def cleanTranslations : List Dict → Except PyError (List Dict)
  | [] => .ok []
  | d :: ds => do
    let c ← cleanTranslation d
    let cs ← cleanTranslations ds
    return c :: cs

/-- Embedding of `update_translations` of `main.py`. -/
def update_translations (translations : List Dict)
    (net : Request → TransportResult) : Except PyError String × List Request :=
  match cleanTranslations translations with
  | .error e => (.error e, [])
  | .ok cleaned_translations =>
    if cleaned_translations.length > 100 then
      (.error (.valueError ("Maximum 100 translations allowed per request")), [])
    else
      let sent := make_simplelocalize_request ("PATCH")
        ("/api/v2/translations/bulk")
        (some (.obj [(("translations"), .arr (cleaned_translations.map Json.obj))])) net
      let outcome : Except PyError String := do
        let result ← sent.1
        bulkOutcome result ("Some translations failed to update: ")
          (("Successfully updated ") ++ toString cleaned_translations.length
            ++ (" translations"))
      (catchSimpleLocalize outcome, sent.2)

/-- Embedding of `publish_translations` of `main.py`: empty environment key raises
`ValueError` before any network activity; otherwise one POST with no
body to the per-environment publish endpoint, echoing `msg` (default
"OK") from the response. -/
def publish_translations (environment_key : String)
    (net : Request → TransportResult) : Except PyError String × List Request :=
  if environment_key = ("") then
    (.error (.valueError ("Environment key is required")), [])
  else
    let sent := make_simplelocalize_request ("POST")
      (("/api/v2/environments/") ++ environment_key ++ ("/publish")) none net
    let outcome : Except PyError String := do
      let result ← sent.1
      let msgVal ← pyGetD result ("msg") (.str ("OK"))
      return ("Successfully initiated publishing to environment \x27")
        ++ environment_key ++ ("\x27. Status: ") ++ pyStr msgVal
    (catchSimpleLocalize outcome, sent.2)

/-- Embedding of `get_environment_status` of `main.py`: empty environment key raises
`ValueError`; otherwise one GET, then the multi-line summary built with
`data.get` defaults (`0`, `"Unknown"`, `[]`). -/
def get_environment_status (environment_key : String)
    (net : Request → TransportResult) : Except PyError String × List Request :=
  if environment_key = ("") then
    (.error (.valueError ("Environment key is required")), [])
  else
    let sent := make_simplelocalize_request ("GET")
      (("/api/v2/environments/") ++ environment_key) none net
    let outcome : Except PyError String := do
      let result ← sent.1
      let dataVal ← pyGetD result ("data") (.obj [])
      let nKeys ← pyGetD dataVal ("numberOfKeys") (.num 0)
      let nLangs ← pyGetD dataVal ("numberOfLanguages") (.num 0)
      let nTrans ← pyGetD dataVal ("numberOfNonEmptyTranslations") (.num 0)
      let createdAt ← pyGetD dataVal ("createdAt") (.str ("Unknown"))
      let resources ← pyGetD dataVal ("resources") (.arr [])
      let nRes ← pyLen resources
      return ("Environment \x27") ++ environment_key ++ ("\x27 Status:\n- Number of keys: ")
        ++ pyStr nKeys ++ ("\n- Number of languages: ") ++ pyStr nLangs
        ++ ("\n- Non-empty translations: ") ++ pyStr nTrans
        ++ ("\n- Created at: ") ++ pyStr createdAt
        ++ ("\n- Number of resources: ") ++ toString nRes
    (catchSimpleLocalize outcome, sent.2)

/-- A `TranslationKeyInput` that conforms to the data model: `key` is a
non-empty string, `namespace` and `description` are strings when
present. -/
def validKeyItem (d : Dict) : Bool :=
  (match dictGet d ("key") with
   | some (Json.str s) => s != ("")
   | _ => false)
  && (match dictGet d ("namespace") with
      | some (Json.str _) => true
      | none => true
      | some _ => false)
  && (match dictGet d ("description") with
      | some (Json.str _) => true
      | none => true
      | some _ => false)

/-- A `TranslationUpdateInput` that conforms to the data model: `key`,
`language`, `text` are strings (possibly empty), `namespace` a string
when present. -/
def validTranslationItem (d : Dict) : Bool :=
  (match dictGet d ("key") with | some (Json.str _) => true | _ => false)
  && (match dictGet d ("language") with | some (Json.str _) => true | _ => false)
  && (match dictGet d ("text") with | some (Json.str _) => true | _ => false)
  && (match dictGet d ("namespace") with
      | some (Json.str _) => true
      | none => true
      | some _ => false)

/-- The required-field presence test of `update_translations`
(`all(k in trans for k in ["key", "language", "text"])`): presence
only, values are not inspected. -/
def hasRequiredTransFields (d : Dict) : Bool :=
  dictContains d ("key") && dictContains d ("language") && dictContains d ("text")

/-- How a cleaned `create_translation_keys` item relates to its input:
its field names are exactly `key` plus the optional fields present in
the input, each field holds the input's value, and no field is null. -/
def cleanedKeyFieldsOk (d c : Dict) : Prop :=
  c.map Prod.fst =
    ("key") :: ((match dictGet d ("namespace") with
                 | some _ => [("namespace")]
                 | none => ([] : List String))
      ++ (match dictGet d ("description") with
          | some _ => [("description")]
          | none => ([] : List String)))
  ∧ dictGet c ("key") = dictGet d ("key")
  ∧ dictGet c ("namespace") = dictGet d ("namespace")
  ∧ dictGet c ("description") = dictGet d ("description")
  ∧ ∀ p ∈ c, p.2 ≠ Json.null

/-- How a cleaned `update_translations` item relates to its input:
field names are exactly `key`, `language`, `text` plus `namespace`
when present in the input, with the input's values, none null. -/
def cleanedTransFieldsOk (d c : Dict) : Prop :=
  c.map Prod.fst =
    [("key"), ("language"), ("text")]
      ++ (match dictGet d ("namespace") with
          | some _ => [("namespace")]
          | none => ([] : List String))
  ∧ dictGet c ("key") = dictGet d ("key")
  ∧ dictGet c ("language") = dictGet d ("language")
  ∧ dictGet c ("text") = dictGet d ("text")
  ∧ dictGet c ("namespace") = dictGet d ("namespace")
  ∧ ∀ p ∈ c, p.2 ≠ Json.null

/-- Local validation of `create_translation_keys` succeeds: every item
cleans and the cleaned list is within the bulk limit. -/
def createPassesValidation (keys : List Dict) : Bool :=
  match cleanKeys keys with
  | .ok l => l.length ≤ 100
  | .error _ => false

/-- Local validation of `update_translations` succeeds. -/
def updatePassesValidation (translations : List Dict) : Bool :=
  match cleanTranslations translations with
  | .ok l => l.length ≤ 100
  | .error _ => false

/-- The remote failures of claim C1 that the code does catch: an
`httpx.HTTPError` raised in transit, or a response with a non-2xx
status. -/
def isRemoteFailure : TransportResult → Bool
  | .transportError _ => true
  | .response status _ => !(is2xx status)

/-- The `resources` field, when present, is a list (so `len` applies). -/
def resourcesOk (dataFields : List (String × Json)) : Bool :=
  match dictGet dataFields ("resources") with
  | some (.arr _) => true
  | none => true
  | some _ => false

/-- Modelled from the spec: the environment-status summary in which
each absent field of the response data object is replaced by its safe
placeholder (`0` for the three counts, `"Unknown"` for the creation
timestamp, `0` resources for an absent resources list), stated as a
total function with no exception plumbing, for comparison with
`get_environment_status`. -/
def specEnvSummary (environment_key : String)
    (dataFields : List (String × Json)) : String :=
  ("Environment \x27") ++ environment_key ++ ("\x27 Status:\n- Number of keys: ")
    ++ pyStr ((dictGet dataFields ("numberOfKeys")).getD (.num 0))
    ++ ("\n- Number of languages: ")
    ++ pyStr ((dictGet dataFields ("numberOfLanguages")).getD (.num 0))
    ++ ("\n- Non-empty translations: ")
    ++ pyStr ((dictGet dataFields ("numberOfNonEmptyTranslations")).getD (.num 0))
    ++ ("\n- Created at: ")
    ++ pyStr ((dictGet dataFields ("createdAt")).getD (.str ("Unknown")))
    ++ ("\n- Number of resources: ")
    ++ toString (match dictGet dataFields ("resources") with
                 | some (.arr xs) => xs.length
                 | _ => 0)

theorem except_bind_ok {α β ε : Type} (a : α) (f : α → Except ε β) :
    (Except.ok a >>= f : Except ε β) = f a := rfl

theorem except_bind_error {α β ε : Type} (e : ε) (f : α → Except ε β) :
    (Except.error e >>= f : Except ε β) = .error e := rfl

theorem except_pure {α ε : Type} (a : α) : (pure a : Except ε α) = .ok a := rfl

theorem cleanKey_error_eq (d : Dict) (e : PyError) (h : cleanKey d = .error e) :
    e = .valueError createKeyErrMsg := by
  unfold cleanKey at h
  split at h
  · exact (Except.error.inj h).symm
  · exact Except.noConfusion h

theorem cleanKey_ok_exists (d : Dict) (h : optTruthy (dictGet d ("key")) = true) :
    ∃ c, cleanKey d = .ok c := by
  unfold cleanKey
  simp [h]

theorem cleanKeys_error_eq (ds : List Dict) : ∀ (e : PyError),
    cleanKeys ds = .error e → e = .valueError createKeyErrMsg := by
  induction ds with
  | nil => intro e h; exact Except.noConfusion h
  | cons d ds ih =>
    intro e h
    simp only [cleanKeys] at h
    cases hc : cleanKey d with
    | error e1 =>
      rw [hc, except_bind_error] at h
      exact (Except.error.inj h) ▸ cleanKey_error_eq d e1 hc
    | ok c =>
      rw [hc, except_bind_ok] at h
      cases hcs : cleanKeys ds with
      | error e2 =>
        rw [hcs, except_bind_error] at h
        exact (Except.error.inj h) ▸ ih e2 hcs
      | ok cs =>
        rw [hcs, except_bind_ok, except_pure] at h
        exact Except.noConfusion h

theorem cleanKeys_length (ds : List Dict) (l : List Dict)
    (h : cleanKeys ds = .ok l) : l.length = ds.length := by
  induction ds generalizing l with
  | nil =>
    simp only [cleanKeys] at h
    cases h
    rfl
  | cons d ds ih =>
    simp only [cleanKeys] at h
    cases hc : cleanKey d with
    | error e1 => rw [hc, except_bind_error] at h; exact Except.noConfusion h
    | ok c =>
      rw [hc, except_bind_ok] at h
      cases hcs : cleanKeys ds with
      | error e2 => rw [hcs, except_bind_error] at h; exact Except.noConfusion h
      | ok cs =>
        rw [hcs, except_bind_ok, except_pure] at h
        cases h
        simp [ih cs hcs]

theorem cleanKeys_bad_mem (ds : List Dict) (d : Dict) (hm : d ∈ ds)
    (hb : optTruthy (dictGet d ("key")) = false) :
    cleanKeys ds = .error (.valueError createKeyErrMsg) := by
  induction ds with
  | nil => cases hm
  | cons a as ih =>
    rcases List.mem_cons.mp hm with h | h
    · subst h
      have : cleanKey d = .error (.valueError createKeyErrMsg) := by
        unfold cleanKey
        simp [hb]
      simp only [cleanKeys]
      rw [this, except_bind_error]
    · simp only [cleanKeys]
      cases hc : cleanKey a with
      | error e1 =>
        rw [except_bind_error]
        rw [cleanKey_error_eq a e1 hc]
      | ok c =>
        rw [except_bind_ok, ih h, except_bind_error]

theorem cleanTranslation_error_eq (d : Dict) (e : PyError)
    (h : cleanTranslation d = .error e) : e = .valueError updateFieldsErrMsg := by
  unfold cleanTranslation at h
  split at h
  · exact (Except.error.inj h).symm
  · exact Except.noConfusion h

theorem cleanTranslation_ok_exists (d : Dict) (h : hasRequiredTransFields d = true) :
    ∃ c, cleanTranslation d = .ok c := by
  unfold cleanTranslation
  unfold hasRequiredTransFields at h
  simp [h]

theorem cleanTranslations_error_eq (ds : List Dict) : ∀ (e : PyError),
    cleanTranslations ds = .error e → e = .valueError updateFieldsErrMsg := by
  induction ds with
  | nil => intro e h; exact Except.noConfusion h
  | cons d ds ih =>
    intro e h
    simp only [cleanTranslations] at h
    cases hc : cleanTranslation d with
    | error e1 =>
      rw [hc, except_bind_error] at h
      exact (Except.error.inj h) ▸ cleanTranslation_error_eq d e1 hc
    | ok c =>
      rw [hc, except_bind_ok] at h
      cases hcs : cleanTranslations ds with
      | error e2 =>
        rw [hcs, except_bind_error] at h
        exact (Except.error.inj h) ▸ ih e2 hcs
      | ok cs =>
        rw [hcs, except_bind_ok, except_pure] at h
        exact Except.noConfusion h

theorem cleanTranslations_length (ds : List Dict) : ∀ (l : List Dict),
    cleanTranslations ds = .ok l → l.length = ds.length := by
  induction ds with
  | nil =>
    intro l h
    simp only [cleanTranslations] at h
    cases h
    rfl
  | cons d ds ih =>
    intro l h
    simp only [cleanTranslations] at h
    cases hc : cleanTranslation d with
    | error e1 => rw [hc, except_bind_error] at h; exact Except.noConfusion h
    | ok c =>
      rw [hc, except_bind_ok] at h
      cases hcs : cleanTranslations ds with
      | error e2 => rw [hcs, except_bind_error] at h; exact Except.noConfusion h
      | ok cs =>
        rw [hcs, except_bind_ok, except_pure] at h
        cases h
        simp [ih cs hcs]

theorem cleanTranslations_all_ok (ds : List Dict)
    (h : ds.all hasRequiredTransFields = true) :
    ∃ l, cleanTranslations ds = .ok l := by
  induction ds with
  | nil => exact ⟨[], rfl⟩
  | cons d ds ih =>
    rw [List.all_cons, Bool.and_eq_true] at h
    obtain ⟨c, hc⟩ := cleanTranslation_ok_exists d h.1
    obtain ⟨l, hl⟩ := ih h.2
    refine ⟨c :: l, ?_⟩
    simp only [cleanTranslations]
    rw [hc, except_bind_ok, hl, except_bind_ok, except_pure]

theorem make_request_transport (method ep : String) (bd : Option Json) (msg : String)
    (hv : pyUpper method = ("POST") ∨ pyUpper method = ("PATCH") ∨ pyUpper method = ("GET")) :
    make_simplelocalize_request method ep bd (fun _ => .transportError msg)
      = (.error (.simpleLocalizeError (("SimpleLocalize API error: ") ++ msg)),
         [⟨pyUpper method, ep, bd⟩]) := by
  unfold make_simplelocalize_request
  rcases hv with h | h | h <;> simp [h]

theorem make_request_status_error (method ep : String) (bd : Option Json)
    (st : Nat) (body : Option Json)
    (hv : pyUpper method = ("POST") ∨ pyUpper method = ("PATCH") ∨ pyUpper method = ("GET"))
    (hst : is2xx st = false) :
    make_simplelocalize_request method ep bd (fun _ => .response st body)
      = (.error (.simpleLocalizeError (("SimpleLocalize API error: ")
            ++ httpStatusErrorMessage st ep)),
         [⟨pyUpper method, ep, bd⟩]) := by
  unfold make_simplelocalize_request
  rcases hv with h | h | h <;> simp [h, hst]

theorem make_request_ok (method ep : String) (bd : Option Json) (st : Nat) (j : Json)
    (hv : pyUpper method = ("POST") ∨ pyUpper method = ("PATCH") ∨ pyUpper method = ("GET"))
    (hst : is2xx st = true) :
    make_simplelocalize_request method ep bd (fun _ => .response st (some j))
      = (.ok j, [⟨pyUpper method, ep, bd⟩]) := by
  unfold make_simplelocalize_request
  rcases hv with h | h | h <;> simp [h, hst]

theorem make_request_malformed (method ep : String) (bd : Option Json) (st : Nat)
    (hv : pyUpper method = ("POST") ∨ pyUpper method = ("PATCH") ∨ pyUpper method = ("GET"))
    (hst : is2xx st = true) :
    make_simplelocalize_request method ep bd (fun _ => .response st none)
      = (.error (.jsonDecodeError jsonDecodeErrorMessage), [⟨pyUpper method, ep, bd⟩]) := by
  unfold make_simplelocalize_request
  rcases hv with h | h | h <;> simp [h, hst]

theorem pyGetD_obj (fs : List (String × Json)) (k : String) (default : Json) :
    pyGetD (.obj fs) k default = .ok ((dictGet fs k).getD default) := rfl

theorem pyContains_obj (fs : List (String × Json)) (k : String) :
    pyContains (.obj fs) k = .ok (dictContains fs k) := rfl

theorem pyIndex_obj_some (fs : List (String × Json)) (k : String) (v : Json)
    (h : dictGet fs k = some v) : pyIndex (.obj fs) k = .ok v := by
  have hred : pyIndex (.obj fs) k
      = match dictGet fs k with
        | some v => .ok v
        | none => .error (.keyError k) := rfl
  rw [hred, h]

theorem dictContains_none (fs : List (String × Json)) (k : String)
    (h : dictGet fs k = none) : dictContains fs k = false := by
  unfold dictContains
  rw [h]
  rfl

theorem dictContains_some (fs : List (String × Json)) (k : String) (v : Json)
    (h : dictGet fs k = some v) : dictContains fs k = true := by
  unfold dictContains
  rw [h]
  rfl

theorem bulkOutcome_data_absent (respFields : List (String × Json)) (fh okMsg : String)
    (hd : dictGet respFields ("data") = none) :
    bulkOutcome (.obj respFields) fh okMsg = .ok okMsg := by
  unfold bulkOutcome
  rw [pyGetD_obj, except_bind_ok, hd]
  simp only [Option.getD, pyContains_obj, except_bind_ok]
  rw [dictContains_none [] _ rfl]
  simp [except_pure]

theorem bulkOutcome_no_failures (respFields dataFields : List (String × Json))
    (fh okMsg : String)
    (hd : dictGet respFields ("data") = some (.obj dataFields))
    (hf : dictGet dataFields ("failures") = none) :
    bulkOutcome (.obj respFields) fh okMsg = .ok okMsg := by
  unfold bulkOutcome
  rw [pyGetD_obj, except_bind_ok, hd]
  simp only [Option.getD, pyContains_obj, except_bind_ok]
  rw [dictContains_none _ _ hf]
  simp [except_pure]

theorem bulkOutcome_failures_truthy (respFields dataFields : List (String × Json))
    (fh okMsg : String) (v : Json)
    (hd : dictGet respFields ("data") = some (.obj dataFields))
    (hf : dictGet dataFields ("failures") = some v)
    (hv : v.truthy = true) :
    bulkOutcome (.obj respFields) fh okMsg = .ok (fh ++ pyRepr v) := by
  unfold bulkOutcome
  rw [pyGetD_obj, except_bind_ok, hd]
  simp only [Option.getD, pyContains_obj, except_bind_ok]
  rw [dictContains_some _ _ _ hf]
  simp only [if_true]
  rw [pyIndex_obj_some _ _ _ hd, except_bind_ok, pyIndex_obj_some _ _ _ hf, except_bind_ok]
  simp [hv, except_pure]

theorem bulkOutcome_failures_falsy (respFields dataFields : List (String × Json))
    (fh okMsg : String) (v : Json)
    (hd : dictGet respFields ("data") = some (.obj dataFields))
    (hf : dictGet dataFields ("failures") = some v)
    (hv : v.truthy = false) :
    bulkOutcome (.obj respFields) fh okMsg = .ok okMsg := by
  unfold bulkOutcome
  rw [pyGetD_obj, except_bind_ok, hd]
  simp only [Option.getD, pyContains_obj, except_bind_ok]
  rw [dictContains_some _ _ _ hf]
  simp only [if_true]
  rw [pyIndex_obj_some _ _ _ hd, except_bind_ok, pyIndex_obj_some _ _ _ hf, except_bind_ok]
  simp [hv, except_pure]

theorem create_eval (keys cleaned : List Dict) (net : Request → TransportResult)
    (hc : cleanKeys keys = .ok cleaned) (hl : cleaned.length ≤ 100) :
    create_translation_keys keys net =
      (catchSimpleLocalize
        ((make_simplelocalize_request ("POST") ("/api/v1/translation-keys/bulk")
            (some (.obj [(("translationKeys"), .arr (cleaned.map Json.obj))])) net).1 >>=
          fun result => bulkOutcome result ("Some keys failed to create: ")
            (("Successfully created ") ++ toString cleaned.length ++ (" translation keys"))),
       (make_simplelocalize_request ("POST") ("/api/v1/translation-keys/bulk")
          (some (.obj [(("translationKeys"), .arr (cleaned.map Json.obj))])) net).2) := by
  have hn : ¬ cleaned.length > 100 := by omega
  simp only [create_translation_keys, hc, if_neg hn]

theorem update_eval (translations cleaned : List Dict) (net : Request → TransportResult)
    (hc : cleanTranslations translations = .ok cleaned) (hl : cleaned.length ≤ 100) :
    update_translations translations net =
      (catchSimpleLocalize
        ((make_simplelocalize_request ("PATCH") ("/api/v2/translations/bulk")
            (some (.obj [(("translations"), .arr (cleaned.map Json.obj))])) net).1 >>=
          fun result => bulkOutcome result ("Some translations failed to update: ")
            (("Successfully updated ") ++ toString cleaned.length ++ (" translations"))),
       (make_simplelocalize_request ("PATCH") ("/api/v2/translations/bulk")
          (some (.obj [(("translations"), .arr (cleaned.map Json.obj))])) net).2) := by
  have hn : ¬ cleaned.length > 100 := by omega
  simp only [update_translations, hc, if_neg hn]

theorem publish_eval (environment_key : String) (net : Request → TransportResult)
    (he : environment_key ≠ ("")) :
    publish_translations environment_key net =
      (catchSimpleLocalize
        ((make_simplelocalize_request ("POST")
            (("/api/v2/environments/") ++ environment_key ++ ("/publish")) none net).1 >>=
          fun result => pyGetD result ("msg") (.str ("OK")) >>=
            fun msgVal => pure (("Successfully initiated publishing to environment \x27")
              ++ environment_key ++ ("\x27. Status: ") ++ pyStr msgVal)),
       (make_simplelocalize_request ("POST")
          (("/api/v2/environments/") ++ environment_key ++ ("/publish")) none net).2) := by
  simp only [publish_translations, if_neg he]

theorem status_eval (environment_key : String) (net : Request → TransportResult)
    (he : environment_key ≠ ("")) :
    get_environment_status environment_key net =
      (catchSimpleLocalize
        ((make_simplelocalize_request ("GET")
            (("/api/v2/environments/") ++ environment_key) none net).1 >>=
          fun result => pyGetD result ("data") (.obj []) >>=
            fun dataVal => pyGetD dataVal ("numberOfKeys") (.num 0) >>=
              fun nKeys => pyGetD dataVal ("numberOfLanguages") (.num 0) >>=
                fun nLangs => pyGetD dataVal ("numberOfNonEmptyTranslations") (.num 0) >>=
                  fun nTrans => pyGetD dataVal ("createdAt") (.str ("Unknown")) >>=
                    fun createdAt => pyGetD dataVal ("resources") (.arr []) >>=
                      fun resources => pyLen resources >>=
                        fun nRes => pure (("Environment \x27") ++ environment_key
                          ++ ("\x27 Status:\n- Number of keys: ")
                          ++ pyStr nKeys ++ ("\n- Number of languages: ") ++ pyStr nLangs
                          ++ ("\n- Non-empty translations: ") ++ pyStr nTrans
                          ++ ("\n- Created at: ") ++ pyStr createdAt
                          ++ ("\n- Number of resources: ") ++ toString nRes)),
       (make_simplelocalize_request ("GET")
          (("/api/v2/environments/") ++ environment_key) none net).2) := by
  simp only [get_environment_status, if_neg he]

theorem pyUpper_POST : pyUpper ("POST") = ("POST") := rfl

theorem pyUpper_PATCH : pyUpper ("PATCH") = ("PATCH") := rfl

theorem pyUpper_GET : pyUpper ("GET") = ("GET") := rfl

theorem catchSL_sl (m : String) :
    catchSimpleLocalize (.error (.simpleLocalizeError m)) = .ok m := rfl

theorem catchSL_ok (s : String) : catchSimpleLocalize (.ok s) = .ok s := rfl

theorem catchSL_jsonDecode (m : String) :
    catchSimpleLocalize (.error (.jsonDecodeError m)) = .error (.jsonDecodeError m) := rfl

theorem make_request_snd (method ep : String) (bd : Option Json)
    (net : Request → TransportResult)
    (hv : pyUpper method = ("POST") ∨ pyUpper method = ("PATCH") ∨ pyUpper method = ("GET")) :
    (make_simplelocalize_request method ep bd net).2 = [⟨pyUpper method, ep, bd⟩] := by
  unfold make_simplelocalize_request
  rcases hv with h | h | h <;>
  [skip; skip; skip] <;>
  · simp only [h]
    rw [if_pos (by simp)]
    rcases net ⟨_, ep, bd⟩ with msg | ⟨st, body⟩
    · rfl
    · dsimp only
      by_cases hst : is2xx st = true
      · rw [if_pos hst]
        rcases body with _ | j <;> rfl
      · rw [if_neg hst]

theorem createPassesValidation_ok (keys : List Dict)
    (h : createPassesValidation keys = true) :
    ∃ l, cleanKeys keys = .ok l ∧ l.length ≤ 100 := by
  unfold createPassesValidation at h
  cases hc : cleanKeys keys with
  | error e => rw [hc] at h; exact Bool.noConfusion h
  | ok l =>
    rw [hc] at h
    exact ⟨l, rfl, by simpa using h⟩

theorem updatePassesValidation_ok (translations : List Dict)
    (h : updatePassesValidation translations = true) :
    ∃ l, cleanTranslations translations = .ok l ∧ l.length ≤ 100 := by
  unfold updatePassesValidation at h
  cases hc : cleanTranslations translations with
  | error e => rw [hc] at h; exact Bool.noConfusion h
  | ok l =>
    rw [hc] at h
    exact ⟨l, rfl, by simpa using h⟩

/-- Claim C3: for every input list of length greater than 100,
`create_translation_keys` and `update_translations` raise a local
`ValueError` (a raised exception, not a returned string) and issue no
network call. -/
theorem oversized_list_local_validation_error (keys translations : List Dict)
    (net : Request → TransportResult)
    (hk : keys.length > 100) (ht : translations.length > 100) :
    (∃ m, create_translation_keys keys net = (.error (.valueError m), []))
    ∧ (∃ m, update_translations translations net = (.error (.valueError m), [])) := by
  constructor
  · cases hc : cleanKeys keys with
    | error e =>
      refine ⟨createKeyErrMsg, ?_⟩
      have he := cleanKeys_error_eq keys e hc
      subst he
      simp only [create_translation_keys, hc]
    | ok l =>
      have hlen : l.length = keys.length := cleanKeys_length keys l hc
      have hgt : l.length > 100 := by omega
      refine ⟨("Maximum 100 keys allowed per request"), ?_⟩
      simp only [create_translation_keys, hc, if_pos hgt]
  · cases hc : cleanTranslations translations with
    | error e =>
      refine ⟨updateFieldsErrMsg, ?_⟩
      have he := cleanTranslations_error_eq translations e hc
      subst he
      simp only [update_translations, hc]
    | ok l =>
      have hlen : l.length = translations.length := cleanTranslations_length translations l hc
      have hgt : l.length > 100 := by omega
      refine ⟨("Maximum 100 translations allowed per request"), ?_⟩
      simp only [update_translations, hc, if_pos hgt]

/-- Witness for C3 at a concrete 101-element input. -/
theorem oversized_list_local_validation_error_witness :
    (∃ m, create_translation_keys (List.replicate 101 [(("key"), Json.str ("a"))])
        (fun _ => .response 200 (some (.obj []))) = (.error (.valueError m), []))
    ∧ (∃ m, update_translations
        (List.replicate 101 [(("key"), Json.str ("a")), (("language"), Json.str ("en")),
          (("text"), Json.str ("t"))])
        (fun _ => .response 200 (some (.obj []))) = (.error (.valueError m), [])) :=
  oversized_list_local_validation_error _ _ _ (by simp) (by simp)

/-- Claim C5: every input list containing an item whose `key` is absent or
the empty string makes `create_translation_keys` raise a `ValueError`
and issue no network call. -/
theorem missing_or_empty_key_validation_error (keys : List Dict)
    (net : Request → TransportResult) (d : Dict) (hm : d ∈ keys)
    (hb : dictGet d ("key") = none ∨ dictGet d ("key") = some (Json.str (""))) :
    create_translation_keys keys net = (.error (.valueError createKeyErrMsg), []) := by
  have hbt : optTruthy (dictGet d ("key")) = false := by
    rcases hb with h | h <;> rw [h] <;> rfl
  have hcl := cleanKeys_bad_mem keys d hm hbt
  simp only [create_translation_keys, hcl]

/-- Witness for C5: a two-element input whose second item lacks `key`. -/
theorem missing_or_empty_key_validation_error_witness :
    create_translation_keys
        [[(("key"), Json.str ("ok"))], [(("namespace"), Json.str ("ns"))]]
        (fun _ => .response 200 (some (.obj [])))
      = (.error (.valueError createKeyErrMsg), []) :=
  missing_or_empty_key_validation_error _ _ [(("namespace"), Json.str ("ns"))]
    (by simp) (Or.inl rfl)

/-- Claim C6: the operations `publish_translations` and `get_environment_status` on the
empty environment key raise `ValueError` and issue no network call;
for every non-empty environment key, `publish_translations` issues
exactly one POST to the per-environment publish endpoint with no
request body. -/
theorem environment_key_validation_and_publish_request
    (net : Request → TransportResult) (env : String) (he : env ≠ ("")) :
    publish_translations ("") net = (.error (.valueError ("Environment key is required")), [])
    ∧ get_environment_status ("") net
        = (.error (.valueError ("Environment key is required")), [])
    ∧ (publish_translations env net).2
        = [⟨("POST"), ("/api/v2/environments/") ++ env ++ ("/publish"), none⟩] := by
  refine ⟨rfl, rfl, ?_⟩
  rw [publish_eval env net he]
  exact make_request_snd ("POST") _ none net (Or.inl pyUpper_POST)

/-- Witness for C6 at the `_production` environment key. -/
theorem environment_key_validation_and_publish_request_witness :
    publish_translations ("") (fun _ => .response 200 (some (.obj [])))
        = (.error (.valueError ("Environment key is required")), [])
    ∧ get_environment_status ("") (fun _ => .response 200 (some (.obj [])))
        = (.error (.valueError ("Environment key is required")), [])
    ∧ (publish_translations ("_production") (fun _ => .response 200 (some (.obj [])))).2
        = [⟨("POST"), ("/api/v2/environments/") ++ ("_production") ++ ("/publish"), none⟩] :=
  environment_key_validation_and_publish_request _ ("_production") (by decide)

/-- Claim C9: the operation `update_translations` validates only the presence of `key`,
`language`, `text` — not their contents: any list (within the bulk
limit) whose items carry the three fields passes validation and the
PATCH request is sent, even with empty-string values; by contrast
`create_translation_keys` rejects an empty `key` before any network
call. -/
theorem update_presence_only_validation (translations : List Dict)
    (net : Request → TransportResult)
    (h1 : translations.all hasRequiredTransFields = true)
    (h2 : translations.length ≤ 100) :
    (∃ cleaned, cleanTranslations translations = .ok cleaned
      ∧ (update_translations translations net).2
          = [⟨("PATCH"), ("/api/v2/translations/bulk"),
              some (.obj [(("translations"), .arr (cleaned.map Json.obj))])⟩])
    ∧ create_translation_keys [[(("key"), Json.str (""))]] net
        = (.error (.valueError createKeyErrMsg), []) := by
  constructor
  · obtain ⟨l, hl⟩ := cleanTranslations_all_ok translations h1
    have hlen : l.length ≤ 100 := by
      rw [cleanTranslations_length translations l hl]
      exact h2
    refine ⟨l, hl, ?_⟩
    rw [update_eval translations l net hl hlen]
    exact make_request_snd ("PATCH") _ _ net (Or.inr (Or.inl pyUpper_PATCH))
  · have hbt : optTruthy (dictGet [(("key"), Json.str (""))] ("key")) = false := rfl
    have hcl := cleanKeys_bad_mem [[(("key"), Json.str (""))]]
      [(("key"), Json.str (""))] (by simp) hbt
    simp only [create_translation_keys, hcl]

/-- Witness for C9: three empty-string-valued fields pass validation. -/
theorem update_presence_only_validation_witness :
    (∃ cleaned, cleanTranslations
        [[(("key"), Json.str ("")), (("language"), Json.str ("")), (("text"), Json.str (""))]]
          = .ok cleaned
      ∧ (update_translations
          [[(("key"), Json.str ("")), (("language"), Json.str ("")), (("text"), Json.str (""))]]
          (fun _ => .response 200 (some (.obj [(("data"), .obj [])])))).2
          = [⟨("PATCH"), ("/api/v2/translations/bulk"),
              some (.obj [(("translations"), .arr (cleaned.map Json.obj))])⟩])
    ∧ create_translation_keys [[(("key"), Json.str (""))]]
        (fun _ => .response 200 (some (.obj [(("data"), .obj [])])))
        = (.error (.valueError createKeyErrMsg), []) :=
  update_presence_only_validation _ _ (by decide) (by decide)

/-- Claim C10: the empty input list passes all local validation in both bulk
operations, one request is issued whose body holds an empty array, and
a 2xx response with no failures yields the success message counting 0. -/
theorem empty_list_zero_count_success (st : Nat) (dataFields : List (String × Json))
    (h2 : is2xx st = true) (hf : dictGet dataFields ("failures") = none) :
    create_translation_keys []
        (fun _ => .response st (some (.obj [(("data"), .obj dataFields)])))
      = (.ok ("Successfully created 0 translation keys"),
         [⟨("POST"), ("/api/v1/translation-keys/bulk"),
           some (.obj [(("translationKeys"), .arr [])])⟩])
    ∧ update_translations []
        (fun _ => .response st (some (.obj [(("data"), .obj dataFields)])))
      = (.ok ("Successfully updated 0 translations"),
         [⟨("PATCH"), ("/api/v2/translations/bulk"),
           some (.obj [(("translations"), .arr [])])⟩]) := by
  constructor
  · rw [create_eval [] [] _ rfl (by simp)]
    rw [make_request_ok ("POST") _ _ st _ (Or.inl pyUpper_POST) h2]
    dsimp only
    rw [except_bind_ok]
    rw [bulkOutcome_no_failures [(("data"), .obj dataFields)] dataFields _ _ rfl hf]
    rw [catchSL_ok]
    rfl
  · rw [update_eval [] [] _ rfl (by simp)]
    rw [make_request_ok ("PATCH") _ _ st _ (Or.inr (Or.inl pyUpper_PATCH)) h2]
    dsimp only
    rw [except_bind_ok]
    rw [bulkOutcome_no_failures [(("data"), .obj dataFields)] dataFields _ _ rfl hf]
    rw [catchSL_ok]
    rfl

/-- Witness for C10 at status 200 and an empty data object. -/
theorem empty_list_zero_count_success_witness :
    create_translation_keys []
        (fun _ => .response 200 (some (.obj [(("data"), .obj [])])))
      = (.ok ("Successfully created 0 translation keys"),
         [⟨("POST"), ("/api/v1/translation-keys/bulk"),
           some (.obj [(("translationKeys"), .arr [])])⟩])
    ∧ update_translations []
        (fun _ => .response 200 (some (.obj [(("data"), .obj [])])))
      = (.ok ("Successfully updated 0 translations"),
         [⟨("PATCH"), ("/api/v2/translations/bulk"),
           some (.obj [(("translations"), .arr [])])⟩]) :=
  empty_list_zero_count_success 200 [] rfl rfl

theorem catch_bind_slerror (m : String) (f : Json → Except PyError String) :
    catchSimpleLocalize (Except.error (.simpleLocalizeError m) >>= f) = .ok m := rfl

theorem catch_bind_jsondecode (m : String) (f : Json → Except PyError String) :
    catchSimpleLocalize (Except.error (.jsonDecodeError m) >>= f)
      = .error (.jsonDecodeError m) := rfl

/-- Claim C1 counterexample: on a valid one-key input, a 2xx response whose
body is not valid JSON makes `create_translation_keys` propagate a
`json.JSONDecodeError` to the caller instead of returning an error
string — `response.json()` raises a `ValueError` subclass that the
`except httpx.HTTPError` clause does not catch. -/
theorem create_keys_malformed_json_propagates :
    (create_translation_keys [[(("key"), Json.str ("hello"))]]
        (fun _ => .response 200 none)).1
      = .error (.jsonDecodeError jsonDecodeErrorMessage) := rfl

/-- Claim C1 (amended): for all four operations, a transport failure or a
non-2xx status is caught and the operation returns a descriptive error
string; but a 2xx response with a malformed (non-JSON) body raises a
`json.JSONDecodeError` that propagates to the caller uncaught. -/
theorem remote_failures_caught_except_json_decode
    (keys translations : List Dict) (env : String) (tr : TransportResult)
    (hk : createPassesValidation keys = true)
    (ht : updatePassesValidation translations = true)
    (he : env ≠ ("")) (hf : isRemoteFailure tr = true) :
    ((∃ s, (create_translation_keys keys (fun _ => tr)).1 = .ok s)
      ∧ (∃ s, (update_translations translations (fun _ => tr)).1 = .ok s)
      ∧ (∃ s, (publish_translations env (fun _ => tr)).1 = .ok s)
      ∧ (∃ s, (get_environment_status env (fun _ => tr)).1 = .ok s))
    ∧ ((create_translation_keys keys (fun _ => .response 200 none)).1
          = .error (.jsonDecodeError jsonDecodeErrorMessage)
      ∧ (update_translations translations (fun _ => .response 200 none)).1
          = .error (.jsonDecodeError jsonDecodeErrorMessage)
      ∧ (publish_translations env (fun _ => .response 200 none)).1
          = .error (.jsonDecodeError jsonDecodeErrorMessage)
      ∧ (get_environment_status env (fun _ => .response 200 none)).1
          = .error (.jsonDecodeError jsonDecodeErrorMessage)) := by
  obtain ⟨kl, hkl, hklen⟩ := createPassesValidation_ok keys hk
  obtain ⟨tl, htl, htlen⟩ := updatePassesValidation_ok translations ht
  have h200 : is2xx 200 = true := rfl
  constructor
  · refine ⟨?_, ?_, ?_, ?_⟩
    · rw [create_eval keys kl _ hkl hklen]
      cases tr with
      | transportError msg =>
        rw [make_request_transport _ _ _ _ (Or.inl pyUpper_POST)]
        dsimp only
        exact ⟨_, catch_bind_slerror _ _⟩
      | response st body =>
        have hst : is2xx st = false := by simpa [isRemoteFailure] using hf
        rw [make_request_status_error _ _ _ _ _ (Or.inl pyUpper_POST) hst]
        dsimp only
        exact ⟨_, catch_bind_slerror _ _⟩
    · rw [update_eval translations tl _ htl htlen]
      cases tr with
      | transportError msg =>
        rw [make_request_transport _ _ _ _ (Or.inr (Or.inl pyUpper_PATCH))]
        dsimp only
        exact ⟨_, catch_bind_slerror _ _⟩
      | response st body =>
        have hst : is2xx st = false := by simpa [isRemoteFailure] using hf
        rw [make_request_status_error _ _ _ _ _ (Or.inr (Or.inl pyUpper_PATCH)) hst]
        dsimp only
        exact ⟨_, catch_bind_slerror _ _⟩
    · rw [publish_eval env _ he]
      cases tr with
      | transportError msg =>
        rw [make_request_transport _ _ _ _ (Or.inl pyUpper_POST)]
        dsimp only
        exact ⟨_, catch_bind_slerror _ _⟩
      | response st body =>
        have hst : is2xx st = false := by simpa [isRemoteFailure] using hf
        rw [make_request_status_error _ _ _ _ _ (Or.inl pyUpper_POST) hst]
        dsimp only
        exact ⟨_, catch_bind_slerror _ _⟩
    · rw [status_eval env _ he]
      cases tr with
      | transportError msg =>
        rw [make_request_transport _ _ _ _ (Or.inr (Or.inr pyUpper_GET))]
        dsimp only
        exact ⟨_, catch_bind_slerror _ _⟩
      | response st body =>
        have hst : is2xx st = false := by simpa [isRemoteFailure] using hf
        rw [make_request_status_error _ _ _ _ _ (Or.inr (Or.inr pyUpper_GET)) hst]
        dsimp only
        exact ⟨_, catch_bind_slerror _ _⟩
  · refine ⟨?_, ?_, ?_, ?_⟩
    · rw [create_eval keys kl _ hkl hklen]
      rw [make_request_malformed _ _ _ _ (Or.inl pyUpper_POST) h200]
      dsimp only
      exact catch_bind_jsondecode _ _
    · rw [update_eval translations tl _ htl htlen]
      rw [make_request_malformed _ _ _ _ (Or.inr (Or.inl pyUpper_PATCH)) h200]
      dsimp only
      exact catch_bind_jsondecode _ _
    · rw [publish_eval env _ he]
      rw [make_request_malformed _ _ _ _ (Or.inl pyUpper_POST) h200]
      dsimp only
      exact catch_bind_jsondecode _ _
    · rw [status_eval env _ he]
      rw [make_request_malformed _ _ _ _ (Or.inr (Or.inr pyUpper_GET)) h200]
      dsimp only
      exact catch_bind_jsondecode _ _

/-- Witness for the amended C1 at a one-key input, a one-translation
input, the `_latest` environment and a 404 response. -/
theorem remote_failures_caught_except_json_decode_witness :
    ((∃ s, (create_translation_keys [[(("key"), Json.str ("k"))]]
        (fun _ => .response 404 (some (.obj [])))).1 = .ok s)
      ∧ (∃ s, (update_translations
          [[(("key"), Json.str ("k")), (("language"), Json.str ("en")),
            (("text"), Json.str ("t"))]]
          (fun _ => .response 404 (some (.obj [])))).1 = .ok s)
      ∧ (∃ s, (publish_translations ("_latest")
          (fun _ => .response 404 (some (.obj [])))).1 = .ok s)
      ∧ (∃ s, (get_environment_status ("_latest")
          (fun _ => .response 404 (some (.obj [])))).1 = .ok s))
    ∧ ((create_translation_keys [[(("key"), Json.str ("k"))]]
          (fun _ => .response 200 none)).1
          = .error (.jsonDecodeError jsonDecodeErrorMessage)
      ∧ (update_translations
          [[(("key"), Json.str ("k")), (("language"), Json.str ("en")),
            (("text"), Json.str ("t"))]]
          (fun _ => .response 200 none)).1
          = .error (.jsonDecodeError jsonDecodeErrorMessage)
      ∧ (publish_translations ("_latest") (fun _ => .response 200 none)).1
          = .error (.jsonDecodeError jsonDecodeErrorMessage)
      ∧ (get_environment_status ("_latest") (fun _ => .response 200 none)).1
          = .error (.jsonDecodeError jsonDecodeErrorMessage)) :=
  remote_failures_caught_except_json_decode _ _ _
    (.response 404 (some (.obj []))) rfl rfl (by decide) rfl

/-- Claim C4: on a 2xx response whose `data` object carries a non-empty
`failures` list, both bulk operations return a string enumerating the
failures as a textual result; with `failures` absent (or falsy, e.g.
the empty list) they return the count-confirmation string whose count
is the input-list length. -/
theorem bulk_2xx_failures_or_count (keys translations : List Dict)
    (st : Nat) (respFields dataFields : List (String × Json))
    (hk : createPassesValidation keys = true)
    (ht : updatePassesValidation translations = true)
    (h2 : is2xx st = true)
    (hd : dictGet respFields ("data") = some (.obj dataFields)) :
    (∀ fs, dictGet dataFields ("failures") = some (Json.arr fs) → fs ≠ [] →
      (create_translation_keys keys
          (fun _ => .response st (some (.obj respFields)))).1
          = .ok (("Some keys failed to create: ") ++ pyRepr (.arr fs))
        ∧ (update_translations translations
          (fun _ => .response st (some (.obj respFields)))).1
          = .ok (("Some translations failed to update: ") ++ pyRepr (.arr fs)))
    ∧ (∀ v, dictGet dataFields ("failures") = some v → v.truthy = false →
      (create_translation_keys keys
          (fun _ => .response st (some (.obj respFields)))).1
          = .ok (("Successfully created ") ++ toString keys.length
              ++ (" translation keys"))
        ∧ (update_translations translations
          (fun _ => .response st (some (.obj respFields)))).1
          = .ok (("Successfully updated ") ++ toString translations.length
              ++ (" translations")))
    ∧ (dictGet dataFields ("failures") = none →
      (create_translation_keys keys
          (fun _ => .response st (some (.obj respFields)))).1
          = .ok (("Successfully created ") ++ toString keys.length
              ++ (" translation keys"))
        ∧ (update_translations translations
          (fun _ => .response st (some (.obj respFields)))).1
          = .ok (("Successfully updated ") ++ toString translations.length
              ++ (" translations"))) := by
  obtain ⟨kl, hkl, hklen⟩ := createPassesValidation_ok keys hk
  obtain ⟨tl, htl, htlen⟩ := updatePassesValidation_ok translations ht
  have hklc : kl.length = keys.length := cleanKeys_length keys kl hkl
  have htlc : tl.length = translations.length := cleanTranslations_length translations tl htl
  refine ⟨?_, ?_, ?_⟩
  · intro fs hfs hne
    have htr : (Json.arr fs).truthy = true := by
      simp [Json.truthy, hne]
    constructor
    · rw [create_eval keys kl _ hkl hklen,
        make_request_ok _ _ _ st _ (Or.inl pyUpper_POST) h2]
      dsimp only
      rw [except_bind_ok,
        bulkOutcome_failures_truthy respFields dataFields _ _ _ hd hfs htr, catchSL_ok]
    · rw [update_eval translations tl _ htl htlen,
        make_request_ok _ _ _ st _ (Or.inr (Or.inl pyUpper_PATCH)) h2]
      dsimp only
      rw [except_bind_ok,
        bulkOutcome_failures_truthy respFields dataFields _ _ _ hd hfs htr, catchSL_ok]
  · intro v hv hfalse
    constructor
    · rw [create_eval keys kl _ hkl hklen,
        make_request_ok _ _ _ st _ (Or.inl pyUpper_POST) h2]
      dsimp only
      rw [except_bind_ok,
        bulkOutcome_failures_falsy respFields dataFields _ _ _ hd hv hfalse, catchSL_ok,
        hklc]
    · rw [update_eval translations tl _ htl htlen,
        make_request_ok _ _ _ st _ (Or.inr (Or.inl pyUpper_PATCH)) h2]
      dsimp only
      rw [except_bind_ok,
        bulkOutcome_failures_falsy respFields dataFields _ _ _ hd hv hfalse, catchSL_ok,
        htlc]
  · intro hnone
    constructor
    · rw [create_eval keys kl _ hkl hklen,
        make_request_ok _ _ _ st _ (Or.inl pyUpper_POST) h2]
      dsimp only
      rw [except_bind_ok,
        bulkOutcome_no_failures respFields dataFields _ _ hd hnone, catchSL_ok, hklc]
    · rw [update_eval translations tl _ htl htlen,
        make_request_ok _ _ _ st _ (Or.inr (Or.inl pyUpper_PATCH)) h2]
      dsimp only
      rw [except_bind_ok,
        bulkOutcome_no_failures respFields dataFields _ _ hd hnone, catchSL_ok, htlc]

/-- Witness for C4: a 3-key input and a 1-translation input against a
200 response carrying `failures: ["key1: duplicate"]`, and likewise
against one with no `failures` field. -/
theorem bulk_2xx_failures_or_count_witness :
    ((create_translation_keys
        [[(("key"), Json.str ("a"))], [(("key"), Json.str ("b"))],
         [(("key"), Json.str ("c"))]]
        (fun _ => .response 200 (some (.obj [(("data"),
          .obj [(("failures"), .arr [Json.str ("key1: duplicate")])])])))).1
        = .ok (("Some keys failed to create: ")
            ++ pyRepr (.arr [Json.str ("key1: duplicate")]))
      ∧ (update_translations
        [[(("key"), Json.str ("k")), (("language"), Json.str ("en")),
          (("text"), Json.str ("t"))]]
        (fun _ => .response 200 (some (.obj [(("data"),
          .obj [(("failures"), .arr [Json.str ("key1: duplicate")])])])))).1
        = .ok (("Some translations failed to update: ")
            ++ pyRepr (.arr [Json.str ("key1: duplicate")])))
    ∧ ((create_translation_keys
        [[(("key"), Json.str ("a"))], [(("key"), Json.str ("b"))],
         [(("key"), Json.str ("c"))]]
        (fun _ => .response 200 (some (.obj [(("data"), .obj [])])))).1
        = .ok (("Successfully created ") ++ toString (3 : Nat)
            ++ (" translation keys"))) :=
  ⟨(bulk_2xx_failures_or_count
      [[(("key"), Json.str ("a"))], [(("key"), Json.str ("b"))],
       [(("key"), Json.str ("c"))]]
      [[(("key"), Json.str ("k")), (("language"), Json.str ("en")),
        (("text"), Json.str ("t"))]]
      200 [(("data"), .obj [(("failures"), .arr [Json.str ("key1: duplicate")])])]
      [(("failures"), .arr [Json.str ("key1: duplicate")])]
      rfl rfl rfl rfl).1 [Json.str ("key1: duplicate")] rfl (by simp),
   ((bulk_2xx_failures_or_count
      [[(("key"), Json.str ("a"))], [(("key"), Json.str ("b"))],
       [(("key"), Json.str ("c"))]]
      [[(("key"), Json.str ("k")), (("language"), Json.str ("en")),
        (("text"), Json.str ("t"))]]
      200 [(("data"), .obj [])] [] rfl rfl rfl rfl).2.2 rfl).1⟩

/-- Claim C8: on every 2xx response (a JSON object), `publish_translations`
returns the success string echoing the response's `msg` status field,
defaulting to "OK" when that field is absent. -/
theorem publish_echoes_status_field (env : String) (st : Nat)
    (respFields : List (String × Json)) (he : env ≠ ("")) (h2 : is2xx st = true) :
    (publish_translations env (fun _ => .response st (some (.obj respFields)))).1
      = .ok (("Successfully initiated publishing to environment \x27") ++ env
          ++ ("\x27. Status: ")
          ++ pyStr ((dictGet respFields ("msg")).getD (.str ("OK")))) := by
  rw [publish_eval env _ he, make_request_ok _ _ _ st _ (Or.inl pyUpper_POST) h2]
  dsimp only
  rw [except_bind_ok, pyGetD_obj, except_bind_ok, except_pure, catchSL_ok]

/-- Witness for C8: `msg` present ("Done") at 200, and `msg` absent
(default "OK") at 201. -/
theorem publish_echoes_status_field_witness :
    (publish_translations ("_production")
        (fun _ => .response 200 (some (.obj [(("msg"), Json.str ("Done"))])))).1
      = .ok (("Successfully initiated publishing to environment \x27") ++ ("_production")
          ++ ("\x27. Status: ")
          ++ pyStr ((dictGet [(("msg"), Json.str ("Done"))] ("msg")).getD (.str ("OK")))) :=
  publish_echoes_status_field ("_production") 200 [(("msg"), Json.str ("Done"))]
    (by decide) rfl

/-- Claim C7: on every 2xx response whose `data` object may be missing any or
all fields (and whose `resources`, when present, is a list), the
status formatter never fails and produces the summary with the safe
placeholders of `specEnvSummary`. -/
theorem env_status_placeholder_summary (env : String) (st : Nat)
    (respFields dataFields : List (String × Json)) (he : env ≠ ("")) (h2 : is2xx st = true)
    (hd : dictGet respFields ("data") = some (.obj dataFields)
      ∨ (dictGet respFields ("data") = none ∧ dataFields = []))
    (hr : resourcesOk dataFields = true) :
    (get_environment_status env (fun _ => .response st (some (.obj respFields)))).1
      = .ok (specEnvSummary env dataFields) := by
  rw [status_eval env _ he, make_request_ok _ _ _ st _ (Or.inr (Or.inr pyUpper_GET)) h2]
  dsimp only
  rw [except_bind_ok, pyGetD_obj, except_bind_ok]
  have hdv : (dictGet respFields ("data")).getD (.obj []) = .obj dataFields := by
    rcases hd with h | ⟨h, hnil⟩
    · rw [h]; rfl
    · rw [h, hnil]; rfl
  rw [hdv, pyGetD_obj, except_bind_ok, pyGetD_obj, except_bind_ok, pyGetD_obj,
    except_bind_ok, pyGetD_obj, except_bind_ok, pyGetD_obj, except_bind_ok]
  have hres : pyLen ((dictGet dataFields ("resources")).getD (.arr []))
      = .ok (match dictGet dataFields ("resources") with
             | some (.arr xs) => xs.length
             | _ => 0) := by
    cases hrg : dictGet dataFields ("resources") with
    | none => rfl
    | some v =>
      unfold resourcesOk at hr
      rw [hrg] at hr
      cases v with
      | arr xs => rfl
      | null => exact Bool.noConfusion hr
      | bool b => exact Bool.noConfusion hr
      | num n => exact Bool.noConfusion hr
      | str s => exact Bool.noConfusion hr
      | obj fs => exact Bool.noConfusion hr
  rw [hres, except_bind_ok, except_pure, catchSL_ok]
  rfl

/-- Witness for C7: a 200 response whose `data` object is empty (all
fields absent) at the `_latest` environment. -/
theorem env_status_placeholder_summary_witness :
    (get_environment_status ("_latest")
        (fun _ => .response 200 (some (.obj [(("data"), .obj [])])))).1
      = .ok (specEnvSummary ("_latest") []) :=
  env_status_placeholder_summary ("_latest") 200 [(("data"), .obj [])] []
    (by decide) rfl (Or.inl rfl) rfl

theorem cleanKey_valid (d : Dict) (h : validKeyItem d = true) :
    ∃ c, cleanKey d = .ok c ∧ cleanedKeyFieldsOk d c := by
  unfold validKeyItem at h
  rw [Bool.and_eq_true, Bool.and_eq_true] at h
  obtain ⟨⟨h1, h2⟩, h3⟩ := h
  cases hk : dictGet d ("key") with
  | none => rw [hk] at h1; exact Bool.noConfusion h1
  | some kv =>
    rw [hk] at h1
    have hkstr : ∃ s, kv = Json.str s ∧ (s != ("")) = true := by
      cases kv with
      | str s => exact ⟨s, rfl, h1⟩
      | null => exact Bool.noConfusion h1
      | bool b => exact Bool.noConfusion h1
      | num n => exact Bool.noConfusion h1
      | arr xs => exact Bool.noConfusion h1
      | obj fs => exact Bool.noConfusion h1
    obtain ⟨s, hs, hsne⟩ := hkstr
    have hcond : optTruthy (dictGet d ("key")) = true := by
      rw [hk, hs]
      simpa [optTruthy, Json.truthy] using hsne
    have hknn : kv ≠ Json.null := by
      rw [hs]
      intro hcon
      exact Json.noConfusion hcon
    have hnn : ∀ v, dictGet d ("namespace") = some v → v ≠ Json.null := by
      intro v hv
      rw [hv] at h2
      cases v with
      | str t => intro hcon; exact Json.noConfusion hcon
      | null => exact Bool.noConfusion h2
      | bool b => exact Bool.noConfusion h2
      | num n => exact Bool.noConfusion h2
      | arr xs => exact Bool.noConfusion h2
      | obj fs => exact Bool.noConfusion h2
    have hdn : ∀ v, dictGet d ("description") = some v → v ≠ Json.null := by
      intro v hv
      rw [hv] at h3
      cases v with
      | str t => intro hcon; exact Json.noConfusion hcon
      | null => exact Bool.noConfusion h3
      | bool b => exact Bool.noConfusion h3
      | num n => exact Bool.noConfusion h3
      | arr xs => exact Bool.noConfusion h3
      | obj fs => exact Bool.noConfusion h3
    cases hn : dictGet d ("namespace") with
    | none =>
      cases hdd : dictGet d ("description") with
      | none =>
        refine ⟨[(("key"), kv)], ?_, ?_, ?_, ?_, ?_, ?_⟩
        · unfold cleanKey
          rw [hcond, hk, hn, hdd]
          rfl
        · rw [hn, hdd]
          rfl
        · rw [hk]
          rfl
        · rw [hn]
          rfl
        · rw [hdd]
          rfl
        · intro p hp
          rw [List.mem_singleton] at hp
          subst hp
          exact hknn
      | some dv =>
        refine ⟨[(("key"), kv), (("description"), dv)], ?_, ?_, ?_, ?_, ?_, ?_⟩
        · unfold cleanKey
          rw [hcond, hk, hn, hdd]
          rfl
        · rw [hn, hdd]
          rfl
        · rw [hk]
          rfl
        · rw [hn]
          rfl
        · rw [hdd]
          rfl
        · intro p hp
          rcases List.mem_cons.mp hp with hp1 | hp1
          · subst hp1
            exact hknn
          · rw [List.mem_singleton] at hp1
            subst hp1
            exact hdn dv hdd
    | some nv =>
      cases hdd : dictGet d ("description") with
      | none =>
        refine ⟨[(("key"), kv), (("namespace"), nv)], ?_, ?_, ?_, ?_, ?_, ?_⟩
        · unfold cleanKey
          rw [hcond, hk, hn, hdd]
          rfl
        · rw [hn, hdd]
          rfl
        · rw [hk]
          rfl
        · rw [hn]
          rfl
        · rw [hdd]
          rfl
        · intro p hp
          rcases List.mem_cons.mp hp with hp1 | hp1
          · subst hp1
            exact hknn
          · rw [List.mem_singleton] at hp1
            subst hp1
            exact hnn nv hn
      | some dv =>
        refine ⟨[(("key"), kv), (("namespace"), nv), (("description"), dv)],
          ?_, ?_, ?_, ?_, ?_, ?_⟩
        · unfold cleanKey
          rw [hcond, hk, hn, hdd]
          rfl
        · rw [hn, hdd]
          rfl
        · rw [hk]
          rfl
        · rw [hn]
          rfl
        · rw [hdd]
          rfl
        · intro p hp
          rcases List.mem_cons.mp hp with hp1 | hp1
          · subst hp1
            exact hknn
          · rcases List.mem_cons.mp hp1 with hp2 | hp2
            · subst hp2
              exact hnn nv hn
            · rw [List.mem_singleton] at hp2
              subst hp2
              exact hdn dv hdd

theorem cleanTranslation_valid (d : Dict) (h : validTranslationItem d = true) :
    ∃ c, cleanTranslation d = .ok c ∧ cleanedTransFieldsOk d c := by
  unfold validTranslationItem at h
  rw [Bool.and_eq_true, Bool.and_eq_true, Bool.and_eq_true] at h
  obtain ⟨⟨⟨h1, h2⟩, h3⟩, h4⟩ := h
  cases hk : dictGet d ("key") with
  | none => rw [hk] at h1; exact Bool.noConfusion h1
  | some kv =>
  rw [hk] at h1
  have hknn : kv ≠ Json.null := by
    cases kv with
    | str t => intro hcon; exact Json.noConfusion hcon
    | null => exact Bool.noConfusion h1
    | bool b => exact Bool.noConfusion h1
    | num n => exact Bool.noConfusion h1
    | arr xs => exact Bool.noConfusion h1
    | obj fs => exact Bool.noConfusion h1
  cases hl : dictGet d ("language") with
  | none => rw [hl] at h2; exact Bool.noConfusion h2
  | some lv =>
  rw [hl] at h2
  have hlnn : lv ≠ Json.null := by
    cases lv with
    | str t => intro hcon; exact Json.noConfusion hcon
    | null => exact Bool.noConfusion h2
    | bool b => exact Bool.noConfusion h2
    | num n => exact Bool.noConfusion h2
    | arr xs => exact Bool.noConfusion h2
    | obj fs => exact Bool.noConfusion h2
  cases ht : dictGet d ("text") with
  | none => rw [ht] at h3; exact Bool.noConfusion h3
  | some tv =>
  rw [ht] at h3
  have htnn : tv ≠ Json.null := by
    cases tv with
    | str t => intro hcon; exact Json.noConfusion hcon
    | null => exact Bool.noConfusion h3
    | bool b => exact Bool.noConfusion h3
    | num n => exact Bool.noConfusion h3
    | arr xs => exact Bool.noConfusion h3
    | obj fs => exact Bool.noConfusion h3
  have hnn : ∀ v, dictGet d ("namespace") = some v → v ≠ Json.null := by
    intro v hv
    rw [hv] at h4
    cases v with
    | str t => intro hcon; exact Json.noConfusion hcon
    | null => exact Bool.noConfusion h4
    | bool b => exact Bool.noConfusion h4
    | num n => exact Bool.noConfusion h4
    | arr xs => exact Bool.noConfusion h4
    | obj fs => exact Bool.noConfusion h4
  have hcset : (dictContains d ("key") && dictContains d ("language")
      && dictContains d ("text")) = true := by
    rw [dictContains_some d ("key") kv hk, dictContains_some d ("language") lv hl,
      dictContains_some d ("text") tv ht]
    rfl
  cases hn : dictGet d ("namespace") with
  | none =>
    refine ⟨[(("key"), kv), (("language"), lv), (("text"), tv)], ?_, ?_, ?_, ?_, ?_, ?_, ?_⟩
    · unfold cleanTranslation
      rw [hcset, hk, hl, ht, hn]
      rfl
    · rw [hn]
      rfl
    · rw [hk]
      rfl
    · rw [hl]
      rfl
    · rw [ht]
      rfl
    · rw [hn]
      rfl
    · intro p hp
      rcases List.mem_cons.mp hp with hp1 | hp1
      · subst hp1
        exact hknn
      · rcases List.mem_cons.mp hp1 with hp2 | hp2
        · subst hp2
          exact hlnn
        · rw [List.mem_singleton] at hp2
          subst hp2
          exact htnn
  | some nv =>
    refine ⟨[(("key"), kv), (("language"), lv), (("text"), tv), (("namespace"), nv)],
      ?_, ?_, ?_, ?_, ?_, ?_, ?_⟩
    · unfold cleanTranslation
      rw [hcset, hk, hl, ht, hn]
      rfl
    · rw [hn]
      rfl
    · rw [hk]
      rfl
    · rw [hl]
      rfl
    · rw [ht]
      rfl
    · rw [hn]
      rfl
    · intro p hp
      rcases List.mem_cons.mp hp with hp1 | hp1
      · subst hp1
        exact hknn
      · rcases List.mem_cons.mp hp1 with hp2 | hp2
        · subst hp2
          exact hlnn
        · rcases List.mem_cons.mp hp2 with hp3 | hp3
          · subst hp3
            exact htnn
          · rw [List.mem_singleton] at hp3
            subst hp3
            exact hnn nv hn

theorem cleanKeys_forall2 (keys : List Dict) (h : keys.all validKeyItem = true) :
    ∃ l, cleanKeys keys = .ok l ∧ List.Forall₂ cleanedKeyFieldsOk keys l := by
  induction keys with
  | nil => exact ⟨[], rfl, List.Forall₂.nil⟩
  | cons d ds ih =>
    rw [List.all_cons, Bool.and_eq_true] at h
    obtain ⟨c, hc, hfield⟩ := cleanKey_valid d h.1
    obtain ⟨l, hl, hf2⟩ := ih h.2
    refine ⟨c :: l, ?_, List.Forall₂.cons hfield hf2⟩
    simp only [cleanKeys]
    rw [hc, except_bind_ok, hl, except_bind_ok, except_pure]

theorem cleanTranslations_forall2 (translations : List Dict)
    (h : translations.all validTranslationItem = true) :
    ∃ l, cleanTranslations translations = .ok l
      ∧ List.Forall₂ cleanedTransFieldsOk translations l := by
  induction translations with
  | nil => exact ⟨[], rfl, List.Forall₂.nil⟩
  | cons d ds ih =>
    rw [List.all_cons, Bool.and_eq_true] at h
    obtain ⟨c, hc, hfield⟩ := cleanTranslation_valid d h.1
    obtain ⟨l, hl, hf2⟩ := ih h.2
    refine ⟨c :: l, ?_, List.Forall₂.cons hfield hf2⟩
    simp only [cleanTranslations]
    rw [hc, except_bind_ok, hl, except_bind_ok, except_pure]

/-- Claim C2: for every valid input list of length at most 100, the outbound
request body of each bulk operation holds, item by item, exactly the
required fields plus only the optional fields present in the input
item, with the input's values, and never a null-valued field. -/
theorem outbound_body_exact_fields (keys translations : List Dict)
    (net : Request → TransportResult)
    (hkv : keys.all validKeyItem = true) (hkl : keys.length ≤ 100)
    (htv : translations.all validTranslationItem = true)
    (htl : translations.length ≤ 100) :
    (∃ cleaned, cleanKeys keys = .ok cleaned
      ∧ List.Forall₂ cleanedKeyFieldsOk keys cleaned
      ∧ (create_translation_keys keys net).2
          = [⟨("POST"), ("/api/v1/translation-keys/bulk"),
              some (.obj [(("translationKeys"), .arr (cleaned.map Json.obj))])⟩])
    ∧ (∃ cleaned, cleanTranslations translations = .ok cleaned
      ∧ List.Forall₂ cleanedTransFieldsOk translations cleaned
      ∧ (update_translations translations net).2
          = [⟨("PATCH"), ("/api/v2/translations/bulk"),
              some (.obj [(("translations"), .arr (cleaned.map Json.obj))])⟩]) := by
  constructor
  · obtain ⟨l, hl, hf⟩ := cleanKeys_forall2 keys hkv
    have hlen : l.length ≤ 100 := by
      rw [cleanKeys_length keys l hl]
      exact hkl
    refine ⟨l, hl, hf, ?_⟩
    rw [create_eval keys l net hl hlen]
    exact make_request_snd ("POST") _ _ net (Or.inl pyUpper_POST)
  · obtain ⟨l, hl, hf⟩ := cleanTranslations_forall2 translations htv
    have hlen : l.length ≤ 100 := by
      rw [cleanTranslations_length translations l hl]
      exact htl
    refine ⟨l, hl, hf, ?_⟩
    rw [update_eval translations l net hl hlen]
    exact make_request_snd ("PATCH") _ _ net (Or.inr (Or.inl pyUpper_PATCH))

/-- Witness for C2: one key item carrying `namespace` but no
`description`, and one translation item with no `namespace`. -/
theorem outbound_body_exact_fields_witness :
    (∃ cleaned, cleanKeys [[(("key"), Json.str ("home.title")),
        (("namespace"), Json.str ("web"))]] = .ok cleaned
      ∧ List.Forall₂ cleanedKeyFieldsOk
          [[(("key"), Json.str ("home.title")), (("namespace"), Json.str ("web"))]] cleaned
      ∧ (create_translation_keys
          [[(("key"), Json.str ("home.title")), (("namespace"), Json.str ("web"))]]
          (fun _ => .response 200 (some (.obj [(("data"), .obj [])])))).2
          = [⟨("POST"), ("/api/v1/translation-keys/bulk"),
              some (.obj [(("translationKeys"), .arr (cleaned.map Json.obj))])⟩])
    ∧ (∃ cleaned, cleanTranslations [[(("key"), Json.str ("home.title")),
        (("language"), Json.str ("en")), (("text"), Json.str ("Home"))]] = .ok cleaned
      ∧ List.Forall₂ cleanedTransFieldsOk
          [[(("key"), Json.str ("home.title")), (("language"), Json.str ("en")),
            (("text"), Json.str ("Home"))]] cleaned
      ∧ (update_translations
          [[(("key"), Json.str ("home.title")), (("language"), Json.str ("en")),
            (("text"), Json.str ("Home"))]]
          (fun _ => .response 200 (some (.obj [(("data"), .obj [])])))).2
          = [⟨("PATCH"), ("/api/v2/translations/bulk"),
              some (.obj [(("translations"), .arr (cleaned.map Json.obj))])⟩]) :=
  outbound_body_exact_fields _ _ _ (by decide) (by decide) (by decide) (by decide)
